import Mathlib

/-!
Verification of the habit-coach worker (`src/worker.ts`).

The worker is a Cloudflare Durable Object exposing four operations on a
per-user state blob: `GET /api/state`, `POST /api/habits`, `POST /api/log`
and `POST /api/coach`.  We give a shallow embedding of its data model and
of each route handler, and prove the specification claims about them.

Modelling conventions:
* Timestamps are `Int` milliseconds since the epoch — the value
  `new Date(s).getTime()` of the ISO strings the code stores; `Date.now()`
  becomes an explicit `now : Int` parameter.
* JS numbers are modelled as `ℚ` (the targets and rates the code computes
  are exact small rationals).
* The Durable Object storage cell holding the blob under the key
  `"state"` is `Option UserState`; `none` means nothing stored yet.
* A parsed JSON request body is `Option` of a body structure whose fields
  are themselves `Option`s: the outer `none` is `request.json()` throwing
  (invalid JSON), an inner `none` a missing field.  JS truthiness of the
  optional fields is made explicit (`strTruthy`, `numTruthy`).
* The external text-generation call `env.AI.run` is modelled by returning
  the list of prompts sent to it (empty when it is never invoked) and by
  an abstract `reply` parameter for its answer.
-/

namespace HabitCoach

/-- Milliseconds in 7 days: `7 * 24 * 60 * 60 * 1000` (worker.ts line 49). -/
def weekMs : Int := 7 * 24 * 60 * 60 * 1000

/-- `interface Habit` (worker.ts lines 15-22).  `frequency` and `period`
are `String`: the TypeScript union types are not checked at runtime. -/
structure Habit where
  id : String
  name : String
  frequency : String
  targetPerPeriod : ℚ
  period : String
  createdAt : Int
  deriving DecidableEq, Repr

/-- `interface HabitLog` (worker.ts lines 24-28); `timestamp` is the
`getTime()` value of the stored ISO string. -/
structure HabitLog where
  id : String
  habitId : String
  timestamp : Int
  deriving DecidableEq, Repr

/-- `interface UserState` (worker.ts lines 30-33). -/
structure UserState where
  habits : List Habit
  logs : List HabitLog
  deriving DecidableEq, Repr

/-- `defaultState()` (worker.ts lines 35-40). -/
def defaultState : UserState :=
  { habits := [], logs := [] }

/-- The derived per-habit statistics record returned by `computeStats`
(worker.ts lines 69-75). -/
structure Stat where
  habitId : String
  name : String
  completedLast7Days : ℕ
  targetPerWeek : ℚ
  completionRate : ℚ
  deriving DecidableEq, Repr

/-- The log filter of `computeStats` (worker.ts lines 52-57): logs whose
`habitId` matches and whose timestamp is `>= weekAgo`.  Note the source
has no upper bound on the timestamp. -/
def countLast7 (now : Int) (hid : String) (logs : List HabitLog) : ℕ :=
  (logs.filter (fun log => log.habitId == hid && decide (now - weekMs ≤ log.timestamp))).length

/-- The body of the `state.habits.map` callback in `computeStats`
(worker.ts lines 51-76), factored out under a name so that per-index
properties can be stated about it. -/
def statFor (now : Int) (state : UserState) (habit : Habit) : Stat :=
  let completedLast7Days := countLast7 now habit.id state.logs
  let targetPerWeek :=
    if habit.period = "week" then habit.targetPerPeriod else habit.targetPerPeriod * 7
  let completionRate :=
    if targetPerWeek > 0 then min 1 ((completedLast7Days : ℚ) / targetPerWeek) else 0
  { habitId := habit.id
    name := habit.name
    completedLast7Days := completedLast7Days
    targetPerWeek := targetPerWeek
    completionRate := completionRate }

/-- `computeStats(state)` (worker.ts lines 47-77), with `Date.now()`
made the explicit parameter `now`. -/
def computeStats (now : Int) (state : UserState) : List Stat :=
  state.habits.map (statFor now state)

/-- JS truthiness of an optional string field: `!x` is true exactly when
the field is absent or the empty string. -/
def strTruthy : Option String → Bool
  | none => false
  | some s => !(s == "")

/-- JS truthiness of an optional number field: `!x` is true exactly when
the field is absent or `0` (ℚ has no NaN). -/
def numTruthy : Option ℚ → Bool
  | none => false
  | some q => !(q == 0)

/-- The parsed body of `POST /api/habits` (worker.ts lines 112-117). -/
structure HabitBody where
  name : Option String
  frequency : Option String
  targetPerPeriod : Option ℚ
  period : Option String
  deriving DecidableEq, Repr

/-- The parsed body of `POST /api/log` (worker.ts line 147). -/
structure LogBody where
  habitId : Option String
  deriving DecidableEq, Repr

/-- The parsed body of `POST /api/coach` (worker.ts line 173). -/
structure CoachBody where
  message : Option String
  deriving DecidableEq, Repr

/-- The `Response` values the handler produces, one constructor per
`Response.json`/`new Response` site of `HabitStore.fetch`. -/
inductive ApiResult where
  | okState (state : UserState) (stats : List Stat)
  | okHabits (habit : Habit) (state : UserState) (stats : List Stat)
  | okLog (log : HabitLog) (state : UserState) (stats : List Stat)
  | okCoach (reply : String) (stats : List Stat)
  | badRequest (msg : String)
  | notFound (msg : String)
  | internalError
  deriving DecidableEq, Repr

/-- The HTTP status attached to each response site: `Response.json` is
200, the explicit sites carry 400/404, the catch block 500. -/
def apiStatus : ApiResult → ℕ
  | .okState _ _ => 200
  | .okHabits _ _ _ => 200
  | .okLog _ _ _ => 200
  | .okCoach _ _ => 200
  | .badRequest _ => 400
  | .notFound _ => 404
  | .internalError => 500

/-- `HabitStore.loadState` (worker.ts lines 88-94): return the stored
blob, or persist and return `defaultState()` when nothing is stored.
The second component is the storage cell after the call. -/
def loadState (storage : Option UserState) : UserState × Option UserState :=
  match storage with
  | some stored => (stored, some stored)
  | none => (defaultState, some defaultState)

/-- `GET /api/state` (worker.ts lines 105-109). -/
def getState (storage : Option UserState) (now : Int) : ApiResult × Option UserState :=
  let p := loadState storage
  (.okState p.1 (computeStats now p.1), p.2)

/-- `POST /api/habits` (worker.ts lines 111-144).  `body? = none` is a
body `request.json()` cannot parse: the exception reaches the catch
block (lines 229-232) before any storage access.  `newId` stands for
`crypto.randomUUID()` and `now` for the current time. -/
def postHabits (storage : Option UserState) (body? : Option HabitBody)
    (newId : String) (now : Int) : ApiResult × Option UserState :=
  match body? with
  | none => (.internalError, storage)
  | some body =>
    if (!(strTruthy body.name) || !(strTruthy body.frequency)
        || !(numTruthy body.targetPerPeriod) || !(strTruthy body.period)) then
      (.badRequest "Invalid habit payload", storage)
    else
      let p := loadState storage
      let newHabit : Habit :=
        { id := newId
          name := body.name.getD ""
          frequency := body.frequency.getD ""
          targetPerPeriod := body.targetPerPeriod.getD 0
          period := body.period.getD ""
          createdAt := now }
      let state : UserState := { p.1 with habits := p.1.habits ++ [newHabit] }
      (.okHabits newHabit state (computeStats now state), some state)

/-- `POST /api/log` (worker.ts lines 146-170). -/
def postLog (storage : Option UserState) (body? : Option LogBody)
    (newId : String) (now : Int) : ApiResult × Option UserState :=
  match body? with
  | none => (.internalError, storage)
  | some body =>
    if strTruthy body.habitId = false then
      (.badRequest "Missing habitId", storage)
    else
      let p := loadState storage
      let hid := body.habitId.getD ""
      match p.1.habits.find? (fun h => h.id == hid) with
      | none => (.notFound "Habit not found", p.2)
      | some _habit =>
        let log : HabitLog := { id := newId, habitId := hid, timestamp := now }
        let state : UserState := { p.1 with logs := p.1.logs ++ [log] }
        (.okLog log state (computeStats now state), some state)

/-- JS `String.prototype.trim`: strip leading and trailing whitespace.
Defined over the character list (structurally recursive, unlike
`String.trim`) so that concrete calls evaluate. -/
def jsTrim (s : String) : String :=
  String.mk (((s.data.dropWhile Char.isWhitespace).reverse.dropWhile Char.isWhitespace).reverse)

/-- One per-habit block of the prompt (worker.ts lines 184-189).  The
rendering of numbers is abstracted: Lean `toString`/`round` in place of
JS template conversion and `toFixed(0)`. -/
def statBlock (s : Stat) : String :=
  "Habit: " ++ s.name
    ++ "\n- Completed last 7 days: " ++ toString s.completedLast7Days
    ++ "\n- Target per week: " ++ toString s.targetPerWeek
    ++ "\n- Completion rate: " ++ toString (round (s.completionRate * 100)) ++ "%"

/-- The `systemPrompt` assembly of `POST /api/coach` (worker.ts lines
183-213): per-habit blocks joined by blank lines, the placeholder
sentence when there are no habits, then the trimmed user message. -/
def coachPrompt (state : UserState) (stats : List Stat) (userMessage : String) : String :=
  let statsSummary := String.intercalate "\n\n" (stats.map statBlock)
  let habitsSummary :=
    if state.habits.length = 0 then "The user has not created any habits yet."
    else statsSummary
  jsTrim
    ("You are an encouraging, practical AI habit coach. \nYou see the user\x27s habit definitions and their performance over the last 7 days.\nGive clear, concise feedback and *one or two* actionable suggestions.\n\nBe:\n- Short (2–4 paragraphs max)\n- Concrete (numbers, patterns, examples)\n- Supportive (no shaming).\n\nUser\x27s habit data:\n\n"
      ++ (if habitsSummary = "" then "No data yet." else habitsSummary)
      ++ "\n\nUser\x27s question or message:\n\x22" ++ userMessage ++ "\x22")

/-- `POST /api/coach` (worker.ts lines 172-226).  The third component
lists the prompts passed to `env.AI.run`; `reply` abstracts the text the
external service returns. -/
def postCoach (storage : Option UserState) (body? : Option CoachBody)
    (now : Int) (reply : String) : ApiResult × Option UserState × List String :=
  match body? with
  | none => (.internalError, storage, [])
  | some body =>
    let userMessage := jsTrim (body.message.getD "")
    if userMessage = "" then
      (.badRequest "Missing message", storage, [])
    else
      let p := loadState storage
      let stats := computeStats now p.1
      let prompt := coachPrompt p.1 stats userMessage
      (.okCoach reply stats, p.2, [prompt])

/-- The count the specification describes (spec §4.2 steps 1-2): logs for
the habit id whose timestamp lies in the inclusive window
`[now - 7*24h, now]`.  Stated from the spec, to compare with the
source-derived `countLast7`. -/
def specWindowCount (now : Int) (hid : String) (logs : List HabitLog) : ℕ :=
  (logs.filter (fun log =>
    log.habitId == hid && decide (now - weekMs ≤ log.timestamp)
      && decide (log.timestamp ≤ now))).length

/-- A concrete habit (`1` per `day`, so a weekly target of `7`), used in
concrete counterexamples and witnesses. -/
def cexHabit : Habit :=
  { id := "h1", name := "Read", frequency := "daily", targetPerPeriod := 1,
    period := "day", createdAt := 0 }

/-- A log dated exactly 7 days after `now = 0`, i.e. strictly in the
future of that clock reading. -/
def cexFutureLog : HabitLog :=
  { id := "l1", habitId := "h1", timestamp := weekMs }

/-- A log dated shortly before `now = 0`, inside the 7-day window. -/
def cexOldLog : HabitLog :=
  { id := "l2", habitId := "h1", timestamp := -1000 }

/-! ## Theorems about the embedded handlers -/

/-- 7 days of milliseconds is a nonnegative span. -/
theorem weekMs_nonneg : (0 : Int) ≤ weekMs := by decide

/-- On a list whose timestamps are all `≤ now`, the source's count (no
upper bound on the timestamp) agrees with the specification's inclusive
window `[now - 7*24h, now]`. -/
theorem countLast7_eq_specWindowCount (now : Int) (hid : String) (logs : List HabitLog)
    (hpast : ∀ log ∈ logs, log.timestamp ≤ now) :
    countLast7 now hid logs = specWindowCount now hid logs := by
  unfold countLast7 specWindowCount
  congr 1
  refine List.filter_congr ?_
  intro log hlog
  simp [decide_eq_true (hpast log hlog)]

/-- Appending one log changes the source's 7-day count by `1` exactly
when the new log matches the habit id and is not older than the window
start. -/
theorem countLast7_append_single (now : Int) (hid : String)
    (logs : List HabitLog) (log : HabitLog) :
    countLast7 now hid (logs ++ [log])
      = countLast7 now hid logs
        + (if log.habitId = hid ∧ now - weekMs ≤ log.timestamp then 1 else 0) := by
  unfold countLast7
  rw [List.filter_append, List.length_append]
  congr 1
  cases hb : (log.habitId == hid) with
  | false =>
    have h1 : ¬ log.habitId = hid := by simpa using hb
    have hpa : (log.habitId == hid && decide (now - weekMs ≤ log.timestamp)) = false := by
      rw [hb]
      rfl
    have hneg : ¬ ((log.habitId == hid && decide (now - weekMs ≤ log.timestamp)) = true) := by
      rw [hpa]
      exact Bool.false_ne_true
    have hfil : List.filter
        (fun l : HabitLog => l.habitId == hid && decide (now - weekMs ≤ l.timestamp)) [log] = [] :=
      List.filter_cons_of_neg hneg
    rw [hfil, if_neg (fun hc => h1 hc.1)]
    rfl
  | true =>
    have h1 : log.habitId = hid := by simpa using hb
    cases hd : (decide (now - weekMs ≤ log.timestamp)) with
    | false =>
      have h2 : ¬ (now - weekMs ≤ log.timestamp) := of_decide_eq_false hd
      have hpa : (log.habitId == hid && decide (now - weekMs ≤ log.timestamp)) = false := by
        rw [hb, hd]
        rfl
      have hneg : ¬ ((log.habitId == hid && decide (now - weekMs ≤ log.timestamp)) = true) := by
        rw [hpa]
        exact Bool.false_ne_true
      have hfil : List.filter
          (fun l : HabitLog => l.habitId == hid && decide (now - weekMs ≤ l.timestamp)) [log] = [] :=
        List.filter_cons_of_neg hneg
      rw [hfil, if_neg (fun hc => h2 hc.2)]
      rfl
    | true =>
      have h2 : now - weekMs ≤ log.timestamp := of_decide_eq_true hd
      have hpa : (log.habitId == hid && decide (now - weekMs ≤ log.timestamp)) = true := by
        rw [hb, hd]
        rfl
      have hfil : List.filter
          (fun l : HabitLog => l.habitId == hid && decide (now - weekMs ≤ l.timestamp)) [log] = [log] :=
        List.filter_cons_of_pos hpa
      rw [hfil, if_pos ⟨h1, h2⟩]
      rfl

/-- C3: `LogCompletion` with a missing/empty `habitId` returns the 400
validation error, and with a `habitId` not found in the habit sequence
returns the 404 not-found error; in both failure cases the stored state
(in particular the log sequence) is observably unchanged. -/
theorem logCompletion_failure_paths (storage : Option UserState) (body : LogBody)
    (newId : String) (now : Int) :
    (strTruthy body.habitId = false →
      postLog storage (some body) newId now = (.badRequest "Missing habitId", storage)) ∧
    (strTruthy body.habitId = true →
      (loadState storage).1.habits.find? (fun h => h.id == body.habitId.getD "") = none →
      postLog storage (some body) newId now = (.notFound "Habit not found", (loadState storage).2) ∧
      ((loadState storage).2).getD defaultState = storage.getD defaultState) := by
  constructor
  · intro h
    simp [postLog, h]
  · intro htr hfind
    refine ⟨?_, ?_⟩
    · simp [postLog, htr, hfind]
    · cases storage <;> rfl

/-- Witness for `logCompletion_failure_paths` at concrete inputs: an
empty `habitId` on the one hand, an unknown `habitId` against the empty
store on the other. -/
theorem logCompletion_failure_paths_witness :
    (postLog (some defaultState) (some { habitId := some "" }) "l1" 0
        = (.badRequest "Missing habitId", some defaultState)) ∧
    (postLog (some defaultState) (some { habitId := some "ghost" }) "l1" 0
        = (.notFound "Habit not found", (loadState (some defaultState)).2)) := by
  refine ⟨?_, ?_⟩
  · exact (logCompletion_failure_paths (some defaultState) { habitId := some "" } "l1" 0).1
      (by decide)
  · exact ((logCompletion_failure_paths (some defaultState) { habitId := some "ghost" } "l1" 0).2
      (by decide) (by decide)).1

/-- C6: `Coach` with a missing, empty, or whitespace-only message
returns the 400 validation error, the storage cell is untouched, and
the list of prompts sent to the external text-generation service is
empty (it is never invoked). -/
theorem coach_empty_message (storage : Option UserState) (body : CoachBody)
    (now : Int) (reply : String) (h : jsTrim (body.message.getD "") = "") :
    postCoach storage (some body) now reply = (.badRequest "Missing message", storage, []) := by
  simp [postCoach, h]

/-- Witness for `coach_empty_message`: a whitespace-only message. -/
theorem coach_empty_message_witness :
    postCoach (some defaultState) (some { message := some "   " }) 0 "any reply"
      = (.badRequest "Missing message", some defaultState, []) :=
  coach_empty_message (some defaultState) { message := some "   " } 0 "any reply" (by decide)

/-- C7: `GetState` and `Coach` perform no state mutation: the habit and
log sequences observable through `loadState` are unchanged, and a blob
that was already persisted is left exactly as it was. -/
theorem getState_coach_no_mutation (storage : Option UserState) (now : Int) :
    (((getState storage now).2).getD defaultState = storage.getD defaultState) ∧
    (∀ st : UserState, storage = some st → (getState storage now).2 = some st) ∧
    (∀ (body? : Option CoachBody) (reply : String),
      ((postCoach storage body? now reply).2.1).getD defaultState = storage.getD defaultState) ∧
    (∀ (body? : Option CoachBody) (reply : String) (st : UserState), storage = some st →
      (postCoach storage body? now reply).2.1 = some st) := by
  refine ⟨?_, ?_, ?_, ?_⟩
  · cases storage <;> rfl
  · intro st h
    subst h
    rfl
  · intro body? reply
    cases body? with
    | none => cases storage <;> rfl
    | some body =>
      cases storage with
      | none => by_cases h : jsTrim (body.message.getD "") = "" <;> simp [postCoach, h, loadState]
      | some st => by_cases h : jsTrim (body.message.getD "") = "" <;> simp [postCoach, h, loadState]
  · intro body? reply st h
    subst h
    cases body? with
    | none => rfl
    | some body =>
      by_cases h : jsTrim (body.message.getD "") = "" <;> simp [postCoach, h, loadState]

/-- Witness for `getState_coach_no_mutation` on a concrete non-empty
store and a concrete coach call. -/
theorem getState_coach_no_mutation_witness :
    (getState (some { habits := [], logs := [] }) 42).2 = some { habits := [], logs := [] } ∧
    (postCoach (some { habits := [], logs := [] }) (some { message := some "hi" }) 42 "r").2.1
      = some { habits := [], logs := [] } := by
  refine ⟨?_, ?_⟩
  · exact (getState_coach_no_mutation (some { habits := [], logs := [] }) 42).2.1
      { habits := [], logs := [] } rfl
  · exact (getState_coach_no_mutation (some { habits := [], logs := [] }) 42).2.2.2
      (some { message := some "hi" }) "r" { habits := [], logs := [] } rfl

/-- C8: `GetState` is idempotent: running it again on the storage cell
it left behind, with no intervening mutation (and the same clock
reading), returns the identical response and the identical storage. -/
theorem getState_idempotent (storage : Option UserState) (now : Int) :
    getState ((getState storage now).2) now = getState storage now := by
  cases storage <;> rfl

/-- C10: a POST body that is not valid JSON makes `request.json()`
throw before any storage access; the catch block turns this into the
generic 500 internal failure (not a 400 validation error) on every POST
route, and the storage cell is unchanged. -/
theorem invalid_json_internal_error (storage : Option UserState)
    (newId : String) (now : Int) (reply : String) :
    postHabits storage none newId now = (.internalError, storage) ∧
    postLog storage none newId now = (.internalError, storage) ∧
    postCoach storage none now reply = (.internalError, storage, []) ∧
    apiStatus (postHabits storage none newId now).1 = 500 ∧
    (∀ msg : String, (postHabits storage none newId now).1 ≠ .badRequest msg) := by
  refine ⟨rfl, rfl, rfl, rfl, ?_⟩
  intro msg h
  exact ApiResult.noConfusion h

/-- Witness for `getState_idempotent` on a concrete non-empty store. -/
theorem getState_idempotent_witness :
    getState ((getState (some { habits := [cexHabit], logs := [] }) 3).2) 3
      = getState (some { habits := [cexHabit], logs := [] }) 3 :=
  getState_idempotent (some { habits := [cexHabit], logs := [] }) 3

/-- Witness for `invalid_json_internal_error` on a concrete store. -/
theorem invalid_json_internal_error_witness :
    postHabits (some defaultState) none "h1" 0 = (.internalError, some defaultState) :=
  (invalid_json_internal_error (some defaultState) "h1" 0 "r").1

/-- C1 (counterexample): the claimed validation is stronger than the
code.  A payload whose `targetPerPeriod` is `-3` (not a positive number)
and whose `frequency` is `"monthly"` (outside `{daily, weekly}`) is
accepted: the response is a 200, and the stored habit sequence changes,
where the claim demands a validation error and no change. -/
theorem createHabit_accepts_invalid_values :
    ¬ (0 < (-3 : ℚ)) ∧
    ("monthly" ≠ "daily" ∧ "monthly" ≠ "weekly") ∧
    (postHabits (some defaultState)
        (some { name := some "Exercise", frequency := some "monthly",
                targetPerPeriod := some (-3), period := some "day" }) "h1" 0).2
      ≠ some defaultState ∧
    apiStatus (postHabits (some defaultState)
        (some { name := some "Exercise", frequency := some "monthly",
                targetPerPeriod := some (-3), period := some "day" }) "h1" 0).1 = 200 := by
  exact ⟨by decide, ⟨by decide, by decide⟩, by decide, rfl⟩

/-- C1 (amended): `CreateHabit` only checks that each of the four fields
is present and truthy (`name` a non-empty string, `frequency` present,
`targetPerPeriod` a nonzero number, `period` present); when any of these
truthiness checks fails it returns the 400 validation error and the
stored habit sequence is unchanged. -/
theorem createHabit_truthiness_validation (storage : Option UserState) (body : HabitBody)
    (newId : String) (now : Int)
    (h : strTruthy body.name = false ∨ strTruthy body.frequency = false ∨
      numTruthy body.targetPerPeriod = false ∨ strTruthy body.period = false) :
    postHabits storage (some body) newId now = (.badRequest "Invalid habit payload", storage) := by
  rcases h with h | h | h | h <;> simp [postHabits, h]

/-- Witness for `createHabit_truthiness_validation`: a payload with the
name missing is rejected and the store is untouched. -/
theorem createHabit_truthiness_validation_witness :
    postHabits (some defaultState)
        (some { name := none, frequency := some "daily",
                targetPerPeriod := some 1, period := some "day" }) "h1" 0
      = (.badRequest "Invalid habit payload", some defaultState) :=
  createHabit_truthiness_validation (some defaultState)
    { name := none, frequency := some "daily", targetPerPeriod := some 1, period := some "day" }
    "h1" 0 (Or.inl (by decide))

/-- C2 (counterexample): with `now = 0`, a log dated 7 days in the
future (`timestamp = weekMs > now`) is counted by `computeStats`
(`completedLast7Days = 1`), although the inclusive window
`[now - 7*24h, now]` of the claim contains no log (`specWindowCount = 0`). -/
theorem stats_count_future_log :
    (computeStats 0 { habits := [cexHabit], logs := [cexFutureLog] }).map
        (fun s => s.completedLast7Days) = [1] ∧
    specWindowCount 0 cexHabit.id [cexFutureLog] = 0 ∧
    (0 : Int) < cexFutureLog.timestamp := by
  exact ⟨by decide, by decide, by decide⟩

/-- C2 (amended): `completedLast7Days` for the habit at index `i` counts
exactly the logs with that habit's id and timestamp `≥ now - 7*24h`;
the code imposes no upper bound, so this coincides with the inclusive
window `[now - 7*24h, now]` exactly when no stored log is dated after
`now`. -/
theorem stats_window_lower_bound_only (now : Int) (state : UserState)
    (hpast : ∀ log ∈ state.logs, log.timestamp ≤ now)
    (i : ℕ) (hi : i < state.habits.length) :
    ∃ stat : Stat, (computeStats now state)[i]? = some stat ∧
      stat.habitId = (state.habits.get ⟨i, hi⟩).id ∧
      stat.completedLast7Days = countLast7 now (state.habits.get ⟨i, hi⟩).id state.logs ∧
      stat.completedLast7Days = specWindowCount now (state.habits.get ⟨i, hi⟩).id state.logs := by
  refine ⟨statFor now state (state.habits.get ⟨i, hi⟩), ?_, rfl, rfl, ?_⟩
  · unfold computeStats
    rw [List.getElem?_map, List.getElem?_eq_getElem hi]
    rfl
  · exact countLast7_eq_specWindowCount now (state.habits.get ⟨i, hi⟩).id state.logs hpast

/-- Witness for `stats_window_lower_bound_only`: one habit, one log one
second in the past. -/
theorem stats_window_lower_bound_only_witness :
    ∃ stat : Stat, (computeStats 0 { habits := [cexHabit], logs := [cexOldLog] })[0]? = some stat ∧
      stat.completedLast7Days
        = specWindowCount 0
            (({ habits := [cexHabit], logs := [cexOldLog] } : UserState).habits.get
              ⟨0, by decide⟩).id
            ({ habits := [cexHabit], logs := [cexOldLog] } : UserState).logs := by
  obtain ⟨stat, h1, -, -, h4⟩ :=
    stats_window_lower_bound_only 0 { habits := [cexHabit], logs := [cexOldLog] }
      (by decide) 0 (by decide)
  exact ⟨stat, h1, h4⟩

/-- The completion-rate and target normalisation facts about the record
`statFor` builds, shared by the per-index statement below. -/
theorem statFor_rate_bounds (now : Int) (state : UserState) (habit : Habit) :
    (0 < (statFor now state habit).targetPerWeek →
      (statFor now state habit).completionRate
        = min 1 (((statFor now state habit).completedLast7Days : ℚ)
            / (statFor now state habit).targetPerWeek)) ∧
    ((statFor now state habit).targetPerWeek ≤ 0 →
      (statFor now state habit).completionRate = 0) ∧
    0 ≤ (statFor now state habit).completionRate ∧
    (statFor now state habit).completionRate ≤ 1 := by
  have hcr : (statFor now state habit).completionRate
      = (if (statFor now state habit).targetPerWeek > 0
          then min 1 (((statFor now state habit).completedLast7Days : ℚ)
            / (statFor now state habit).targetPerWeek)
          else 0) := rfl
  by_cases h : 0 < (statFor now state habit).targetPerWeek
  · rw [hcr, if_pos h]
    refine ⟨fun _ => rfl, fun hle => absurd h (not_lt.mpr hle), ?_, min_le_left _ _⟩
    exact le_min (by norm_num) (div_nonneg (Nat.cast_nonneg _) (le_of_lt h))
  · rw [hcr, if_neg h]
    exact ⟨fun h0 => absurd h0 h, fun _ => rfl, le_refl 0, by norm_num⟩

/-- C4: the stat derived for the habit at index `i` has
`targetPerWeek = targetPerPeriod` for `period = week` and
`targetPerPeriod * 7` otherwise (the source tests only for `"week"`;
`"day"` is the `else` branch), and
`completionRate = min 1 (completedLast7Days / targetPerWeek)` when
`targetPerWeek > 0` and `0` when `targetPerWeek ≤ 0`, so it always lies
in `[0, 1]`. -/
theorem stats_target_and_rate (now : Int) (state : UserState)
    (i : ℕ) (hi : i < state.habits.length) :
    ∃ stat : Stat, (computeStats now state)[i]? = some stat ∧
      stat.targetPerWeek
        = (if (state.habits.get ⟨i, hi⟩).period = "week"
            then (state.habits.get ⟨i, hi⟩).targetPerPeriod
            else (state.habits.get ⟨i, hi⟩).targetPerPeriod * 7) ∧
      (0 < stat.targetPerWeek →
        stat.completionRate = min 1 ((stat.completedLast7Days : ℚ) / stat.targetPerWeek)) ∧
      (stat.targetPerWeek ≤ 0 → stat.completionRate = 0) ∧
      0 ≤ stat.completionRate ∧ stat.completionRate ≤ 1 := by
  refine ⟨statFor now state (state.habits.get ⟨i, hi⟩), ?_, rfl,
    statFor_rate_bounds now state (state.habits.get ⟨i, hi⟩)⟩
  unfold computeStats
  rw [List.getElem?_map, List.getElem?_eq_getElem hi]
  rfl

/-- Witness for `stats_target_and_rate`: the scenario habit (1 per day)
with no logs. -/
theorem stats_target_and_rate_witness :
    ∃ stat : Stat, (computeStats 0 { habits := [cexHabit], logs := [] })[0]? = some stat ∧
      0 ≤ stat.completionRate ∧ stat.completionRate ≤ 1 := by
  obtain ⟨stat, h1, -, -, -, h5, h6⟩ :=
    stats_target_and_rate 0 { habits := [cexHabit], logs := [] } 0 (by decide)
  exact ⟨stat, h1, h5, h6⟩

/-- C5: `LogCompletion` on an existing habit appends exactly one log —
the prior habit sequence and log sequence are preserved — and the
appended log is stamped with the current time, which always lies inside
the trailing 7-day window `[now - 7*24h, now]`, so the count for that
habit's id goes up by exactly one while every other id's count is
unchanged. -/
theorem logCompletion_appends_one_log (storage : Option UserState) (body : LogBody)
    (newId : String) (now : Int) (habit : Habit)
    (htr : strTruthy body.habitId = true)
    (hfind : (loadState storage).1.habits.find? (fun h => h.id == body.habitId.getD "")
      = some habit) :
    ∃ newLog : HabitLog, ∃ state1 : UserState,
      postLog storage (some body) newId now
        = (.okLog newLog state1 (computeStats now state1), some state1) ∧
      newLog = { id := newId, habitId := body.habitId.getD "", timestamp := now } ∧
      state1.habits = (loadState storage).1.habits ∧
      state1.logs = (loadState storage).1.logs ++ [newLog] ∧
      now - weekMs ≤ newLog.timestamp ∧ newLog.timestamp ≤ now ∧
      habit.id = body.habitId.getD "" ∧
      countLast7 now habit.id state1.logs
        = countLast7 now habit.id (loadState storage).1.logs + 1 ∧
      (∀ hid2 : String, hid2 ≠ body.habitId.getD "" →
        countLast7 now hid2 state1.logs = countLast7 now hid2 (loadState storage).1.logs) := by
  have hid_eq : habit.id = body.habitId.getD "" := by
    simpa using List.find?_some hfind
  refine ⟨{ id := newId, habitId := body.habitId.getD "", timestamp := now },
    { (loadState storage).1 with
        logs := (loadState storage).1.logs
          ++ [{ id := newId, habitId := body.habitId.getD "", timestamp := now }] },
    ?_, rfl, rfl, rfl, sub_le_self now weekMs_nonneg, le_refl now, hid_eq, ?_, ?_⟩
  · simp [postLog, htr, hfind]
  · show countLast7 now habit.id ((loadState storage).1.logs ++ [_]) = _
    rw [countLast7_append_single, if_pos ⟨hid_eq.symm, sub_le_self now weekMs_nonneg⟩]
  · intro hid2 hne
    show countLast7 now hid2 ((loadState storage).1.logs ++ [_]) = _
    rw [countLast7_append_single, if_neg (fun hc => hne hc.1.symm), Nat.add_zero]

/-- Witness for `logCompletion_appends_one_log`: logging the concrete
habit against a store holding exactly that habit. -/
theorem logCompletion_appends_one_log_witness :
    ∃ newLog : HabitLog, ∃ state1 : UserState,
      postLog (some { habits := [cexHabit], logs := [] }) (some { habitId := some "h1" }) "l9" 5
        = (.okLog newLog state1 (computeStats 5 state1), some state1) ∧
      state1.habits = [cexHabit] ∧
      state1.logs = [] ++ [newLog] := by
  obtain ⟨newLog, state1, h1, -, h3, h4, -, -, -, -, -⟩ :=
    logCompletion_appends_one_log (some { habits := [cexHabit], logs := [] })
      { habitId := some "h1" } "l9" 5 cexHabit (by decide) (by decide)
  exact ⟨newLog, state1, h1, h3, h4⟩

end HabitCoach
